import Mathlib

set_option maxHeartbeats 1000000

/- Shallow embedding of the mpp-server-rust in-memory session state machine.
   Source: src/types.rs, src/server.rs, src/handlers.rs, src/utils.rs.
   The concurrent DashMap registries become association lists over String
   keys, each handler becomes a pure function from a registry state (plus the
   fields it reads from the incoming JSON event and the current wall-clock
   time) to a new state together with the list of (recipient, payload) frames
   it enqueues.  Rust i32 values become Int and u64 times become Nat: every
   quantity manipulated here stays far below the machine bounds, so wrapping
   is never exercised.  The f64 cursor coordinates are only ever copied, never
   computed with, and are embedded as Int. -/

/- Association list helpers standing for DashMap / HashMap. -/

def alGet {α : Type} (m : List (String × α)) (k : String) : Option α :=
  match m with
  | [] => none
  | (k2, v) :: rest => if k2 = k then some v else alGet rest k

def alSet {α : Type} (m : List (String × α)) (k : String) (v : α) : List (String × α) :=
  match m with
  | [] => [(k, v)]
  | (k2, v2) :: rest => if k2 = k then (k, v) :: rest else (k2, v2) :: alSet rest k v

def alErase {α : Type} (m : List (String × α)) (k : String) : List (String × α) :=
  match m with
  | [] => []
  | (k2, v2) :: rest => if k2 = k then alErase rest k else (k2, v2) :: alErase rest k

/- Membership test for the two id sets (subscribedToLs keys, wsSenders keys). -/
def memb (l : List String) (k : String) : Bool :=
  match l with
  | [] => false
  | x :: rest => if x = k then true else memb rest k

def subAdd (l : List String) (k : String) : List String :=
  if memb l k then l else k :: l

def subRemove (l : List String) (k : String) : List String :=
  match l with
  | [] => []
  | x :: rest => if x = k then subRemove rest k else x :: subRemove rest k

/- Character-list versions of the string primitives the handlers use, chosen
   so that every definition evaluates inside the kernel. -/

def strTake (s : String) (n : Nat) : String :=
  String.mk (s.data.take n)

def strStartsWith (s p : String) : Bool :=
  p.data.isPrefixOf s.data

def strLen (s : String) : Nat :=
  s.data.length

/- Rust String::len counts UTF-8 bytes, not characters. -/
def byteLen (s : String) : Nat :=
  s.data.foldr (fun c r => Char.utf8Size c + r) 0

/- Two would be complement wrap of release-mode i32 arithmetic: the value an
   i32 add, subtract or multiply leaves in the register when it overflows.
   Identity on [-2^31, 2^31). -/
def wrap32 (x : Int) : Int :=
  (x + 2147483648) % 4294967296 - 2147483648

/- Data model, from src/types.rs. -/

structure Position where
  x : Int
  y : Int
deriving DecidableEq

structure Participant where
  id : String
  uid : String
  name : String
  color : String
  x : Int
  y : Int
deriving DecidableEq

structure Crown where
  participantId : Option String
  userId : Option String
  time : Nat
  startPos : Position
  endPos : Position
deriving DecidableEq

structure ChannelSettings where
  color : String
  color2 : Option String
  lobby : Bool
  visible : Bool
  chat : Option Bool
  crownsolo : Option Bool
deriving DecidableEq

structure ChatMessage where
  m : String
  a : String
  p : Participant
  t : Nat
deriving DecidableEq

structure Channel where
  chanId : String
  settings : ChannelSettings
  crown : Option Crown
  participants : List (String × Participant)
  chatHistory : List ChatMessage
deriving DecidableEq

structure NoteQuota where
  points : Int
  allowance : Int
  max : Int
  maxHistLen : Nat
  history : List Int
deriving DecidableEq

structure ClientData where
  userId : String
  participant : Option Participant
  channelId : Option String
  lastMoveTime : Option Nat
  noteQuota : NoteQuota
deriving DecidableEq

structure BanInfo where
  channelId : String
  expiry : Nat
deriving DecidableEq

/- NoteQuota methods, from src/types.rs lines 81-135. -/

def NoteQuota.new : NoteQuota :=
  { points := 24000, allowance := 8000, max := 24000, maxHistLen := 3,
    history := List.replicate 3 24000 }

def NoteQuota.tick (q : NoteQuota) : NoteQuota :=
  { q with
    history := (q.points :: q.history).take q.maxHistLen,
    points :=
      if q.points < q.max then
        (if q.points + q.allowance > q.max then q.max else q.points + q.allowance)
      else q.points }

/- spend works in i32 arithmetic: the iterated history sum, the needed
   multiply and the points subtraction all wrap on overflow in a release
   build (wrapping the mathematical sum once equals the iterated i32 sum). -/
def NoteQuota.spend (q : NoteQuota) (needed : Int) : Bool × NoteQuota :=
  let sum := wrap32 q.history.sum
  let numNeeded := if sum ≤ 0 then wrap32 (needed * q.allowance) else needed
  if q.points < numNeeded then (false, q)
  else (true, { q with points := wrap32 (q.points - numNeeded) })

/- Registry state, from src/server.rs lines 11-17.  The wsSenders map holds
   one mpsc sender per live connection; only the key set is observable to the
   handlers (sendToClient checks presence and enqueues), so it is embedded as
   the list of keys, and enqueued frames are returned explicitly as
   (recipient, payload) pairs. -/

structure LsEntry where
  chanId : String
  count : Nat
  crown : Option Crown
  settings : ChannelSettings
deriving DecidableEq

/- Wire frames the server enqueues.  Constructors mirror the JSON objects
   built in src/handlers.rs and src/server.rs; fields the handlers fill with
   formatted text that no claim inspects (the two kickban notices and the
   ban-on-join notice) carry the values being formatted instead of the
   rendered string. -/
inductive Msg where
  | hiMsg (u : Participant) (t : Nat)
  | nqMsg (allowance maxPoints : Int) (histLen : Nat)
  | lsMsg (c : Bool) (u : List LsEntry)
  | tMsg (t : Nat) (e : Int)
  | chatMsg (a : String) (p : Participant) (t : Nat)
  | noteMsg (t : Option Int) (n : List Nat) (p : String)
  | moveMsg (id : String) (x y : Int)
  | pMsg (id uid name color : String) (x y : Int)
  | chMsg (chanId : String) (settings : ChannelSettings) (crown : Option Crown)
      (ppl : List Participant) (p : Option String)
  | cMsg (c : List ChatMessage)
  | byeMsg (p : String)
  | notifyMsg (text cls : String) (duration : Nat)
  | banNotice (channelId : String) (expiry : Nat)
  | kickTargetNotice (channelId : String) (seconds : Nat)
  | kickBroadcastNotice (banner target : String) (seconds : Nat) (selfBan : Bool)
  | unbanNotice (userId : String)
  | devMsg (list : Nat)
deriving DecidableEq

structure ServerState where
  channels : List (String × Channel)
  clients : List (String × ClientData)
  subscribedToLs : List String
  bannedUsers : List (String × BanInfo)
  wsSenders : List String
deriving DecidableEq

def initState : ServerState :=
  { channels := [], clients := [], subscribedToLs := [], bannedUsers := [],
    wsSenders := [] }

/- Broadcaster, from src/server.rs lines 201-273. -/

def sendToClient (s : ServerState) (cid : String) (msg : Msg) : List (String × Msg) :=
  if memb s.wsSenders cid then [(cid, msg)] else []

def excludeOk (exclude : Option String) (pid : String) : Bool :=
  match exclude with
  | some e => if pid = e then false else true
  | none => true

def broadcastToChannel (s : ServerState) (chid : String) (msg : Msg)
    (exclude : Option String) : List (String × Msg) :=
  match alGet s.channels chid with
  | none => []
  | some ch =>
      (ch.participants.filter
        (fun kv => excludeOk exclude kv.fst && memb s.wsSenders kv.fst)).map
        (fun kv => (kv.fst, msg))

def lsEntryOf (ch : Channel) : LsEntry :=
  { chanId := ch.chanId, count := ch.participants.length,
    crown := if ch.settings.lobby then none else ch.crown,
    settings := ch.settings }

def broadcastLsUpdate (s : ServerState) (chid : String) (isBulk : Bool) :
    List (String × Msg) :=
  match alGet s.channels chid with
  | none => []
  | some ch =>
      if ch.settings.visible then
        (s.subscribedToLs.filter (fun sub => memb s.wsSenders sub)).map
          (fun sub => (sub, Msg.lsMsg isBulk [lsEntryOf ch]))
      else []

/- Channel defaults, from src/server.rs lines 275-317. -/

def createDefaultChannel (now : Nat) (chid : String) : Channel :=
  if chid = "lobby" ∨ strStartsWith chid "test/" then
    { chanId := chid,
      settings := { color := "#73b3cc", color2 := some "#273546", lobby := true,
                    visible := true, chat := some true, crownsolo := none },
      crown := none, participants := [], chatHistory := [] }
  else
    { chanId := chid,
      settings := { color := "#ecfaed", color2 := none, lobby := false,
                    visible := true, chat := none, crownsolo := none },
      crown := some { participantId := none, userId := none, time := now,
                      startPos := { x := 0, y := 0 }, endPos := { x := 0, y := 0 } },
      participants := [], chatHistory := [] }

def defaultParticipant (cid uid : String) : Participant :=
  { id := cid, uid := uid, name := "Anonymous", color := "#" ++ strTake uid 6,
    x := 0, y := 0 }

/- Disconnect routine, from src/server.rs lines 138-199. -/

def handleDisconnect (now : Nat) (s : ServerState) (cid : String) :
    ServerState × List (String × Msg) :=
  let core : ServerState × List (String × Msg) :=
    match alGet s.clients cid with
    | none => (s, [])
    | some client =>
      match client.channelId with
      | none => (s, [])
      | some chid =>
        match alGet s.channels chid with
        | none => (s, [])
        | some ch =>
          let parts := alErase ch.participants cid
          let cr1 : Option Crown :=
            match ch.crown with
            | some cr =>
                if cr.participantId = some cid then
                  some { cr with participantId := none, userId := none }
                else some cr
            | none => none
          let cr2 : Option Crown :=
            match cr1 with
            | some cr =>
                if cr.participantId = none then
                  match parts.head? with
                  | some pr =>
                      some { cr with
                        participantId := some pr.fst,
                        userId :=
                          match alGet s.clients pr.fst with
                          | some c2 => some c2.userId
                          | none => cr.userId,
                        time := now }
                  | none => some cr
                else some cr
            | none => none
          let ch2 := { ch with participants := parts, crown := cr2 }
          let s1 := { s with channels := alSet s.channels chid ch2 }
          let byes := broadcastToChannel s1 chid (Msg.byeMsg cid) (some cid)
          if parts.isEmpty ∧ chid ≠ "lobby" ∧ ¬(strStartsWith chid "test/" = true) then
            let s2 := { s1 with channels := alErase s1.channels chid }
            (s2, byes ++ broadcastLsUpdate s2 chid false)
          else (s1, byes)
  let s3 := core.fst
  ({ s3 with subscribedToLs := subRemove s3.subscribedToLs cid,
             clients := alErase s3.clients cid }, core.snd)

/- Handlers, from src/handlers.rs.  Each takes the fields the Rust handler
   reads out of the incoming JSON event as Option-typed arguments (none when
   the field is missing or of the wrong type, in which case the handler drops
   the event exactly as serde field extraction does). -/

/- hi, lines 79-106. -/
def handleHi (now : Nat) (s : ServerState) (cid : String) :
    ServerState × List (String × Msg) :=
  match alGet s.clients cid with
  | none => (s, [])
  | some client =>
      let part := { id := cid, uid := client.userId, name := "Anonymous",
                    color := "#" ++ strTake client.userId 6, x := 0, y := 0 :
                    Participant }
      let client2 := { client with participant := some part }
      let s1 := { s with clients := alSet s.clients cid client2 }
      (s1, sendToClient s1 cid (Msg.hiMsg part now)
           ++ sendToClient s1 cid
                (Msg.nqMsg client.noteQuota.allowance client.noteQuota.max
                  client.noteQuota.maxHistLen))

/- +ls, lines 112-133. -/
def handlePlusLs (s : ServerState) (cid : String) :
    ServerState × List (String × Msg) :=
  let s1 := { s with subscribedToLs := subAdd s.subscribedToLs cid }
  let entries :=
    (s1.channels.filter (fun kv => kv.snd.settings.visible)).map
      (fun kv => lsEntryOf kv.snd)
  (s1, sendToClient s1 cid (Msg.lsMsg true entries))

/- -ls, lines 135-137. -/
def handleMinusLs (s : ServerState) (cid : String) :
    ServerState × List (String × Msg) :=
  ({ s with subscribedToLs := subRemove s.subscribedToLs cid }, [])

/- t, lines 139-147. -/
def handleTime (now : Nat) (s : ServerState) (cid : String) (e : Option Int) :
    ServerState × List (String × Msg) :=
  match e with
  | none => (s, [])
  | some ev => (s, sendToClient s cid (Msg.tMsg now ev))

/- a (chat), lines 149-196.  Note the Rust slice message[..min(256, len)] is
   taken after the len > 256 guard has already dropped longer messages, so it
   is the identity and the payload carries the message itself. -/
def handleChat (now : Nat) (s : ServerState) (cid : String)
    (message : Option String) : ServerState × List (String × Msg) :=
  match message with
  | none => (s, [])
  | some msg =>
      if byteLen msg > 256 then (s, [])
      else
        match alGet s.clients cid with
        | none => (s, [])
        | some client =>
          match client.channelId with
          | none => (s, [])
          | some chid =>
            match client.participant with
            | none => (s, [])
            | some part =>
              match alGet s.channels chid with
              | none => (s, [])
              | some ch =>
                  if ch.settings.chat.getD false then
                    (s, broadcastToChannel s chid (Msg.chatMsg msg part now) none)
                  else (s, [])

/- n (notes), lines 198-259. -/
def handleNote (_now : Nat) (s : ServerState) (cid : String) (t : Option Int)
    (n : Option (List Nat)) : ServerState × List (String × Msg) :=
  match n with
  | none => (s, [])
  | some notes =>
      match alGet s.clients cid with
      | none => (s, [])
      | some client =>
          let res := client.noteQuota.spend (notes.length : Int)
          let s1 := { s with
            clients := alSet s.clients cid { client with noteQuota := res.snd } }
          if res.fst then
            match client.channelId with
            | none => (s1, [])
            | some chid =>
              match alGet s1.channels chid with
              | none => (s1, [])
              | some ch =>
                  let go :=
                    (s1, broadcastToChannel s1 chid (Msg.noteMsg t notes cid)
                           (some cid))
                  if ch.settings.crownsolo.getD false then
                    match ch.crown with
                    | some cr =>
                        if cr.participantId = some cid then go else (s1, [])
                    | none => go
                  else go
          else
            (s1, sendToClient s1 cid
              (Msg.notifyMsg "You\x27re playing too fast! Slow down." "short" 2000))

/- m (movement), lines 261-330. -/
def handleMovement (now : Nat) (s : ServerState) (cid : String)
    (x y : Option Int) : ServerState × List (String × Msg) :=
  match x, y with
  | some xv, some yv =>
      (match alGet s.clients cid with
      | none => (s, [])
      | some client =>
          let throttled : Bool :=
            match client.lastMoveTime with
            | some last => decide (now - last < 50)
            | none => false
          if throttled then (s, [])
          else
            let client2 := { client with
              lastMoveTime := some now,
              participant := client.participant.map
                (fun p => { p with x := xv, y := yv }) }
            let s1 := { s with clients := alSet s.clients cid client2 }
            match client.channelId with
            | none => (s1, [])
            | some chid =>
                (s1, broadcastToChannel s1 chid (Msg.moveMsg cid xv yv) (some cid)))
  | _, _ => (s, [])

/- userset, lines 332-386. -/
def handleUserset (s : ServerState) (cid : String)
    (setName setColor : Option String) : ServerState × List (String × Msg) :=
  match setName with
  | none => (s, [])
  | some nm =>
      let tn := nm.trim
      if strLen tn = 0 ∨ strLen tn > 40 then (s, [])
      else
        match alGet s.clients cid with
        | none => (s, [])
        | some client =>
            let part2 := client.participant.map (fun p =>
              { p with name := tn,
                       color := match setColor with
                                | some c => c
                                | none => p.color })
            let client2 := { client with participant := part2 }
            let s1 := { s with clients := alSet s.clients cid client2 }
            match client.channelId with
            | none => (s1, [])
            | some chid =>
              match part2 with
              | none => (s1, [])
              | some p =>
                  (s1, broadcastToChannel s1 chid
                    (Msg.pMsg cid client.userId p.name p.color p.x p.y) none)

/- ch (join or switch channel), lines 388-527, split into its phases. -/

/- Lazily create the target channel, lines 426-430 (state part). -/
def chCreate (now : Nat) (s : ServerState) (chid : String) : ServerState :=
  if (alGet s.channels chid).isSome then s
  else { s with channels := alSet s.channels chid (createDefaultChannel now chid) }

/- Remove the client from its old channel and clear (not reassign) the crown
   holder if it was this connection, lines 433-445.  The emptied channel is
   left in the map. -/
def chLeaveOld (s : ServerState) (cid old : String) : ServerState :=
  match alGet s.channels old with
  | none => s
  | some ch =>
      let crown2 : Option Crown :=
        match ch.crown with
        | some cr =>
            if cr.participantId = some cid then
              some { cr with participantId := none, userId := none }
            else some cr
        | none => none
      let ch2 := { ch with participants := alErase ch.participants cid,
                           crown := crown2 }
      { s with channels := alSet s.channels old ch2 }

/- Insert the participant and claim an unheld crown, lines 479-488. -/
def joinedChannel (now : Nat) (cid uid : String) (part : Participant)
    (ch : Channel) : Channel :=
  { ch with
    participants := alSet ch.participants cid part,
    crown :=
      match ch.crown with
      | some cr =>
          if cr.participantId = none then
            some { cr with participantId := some cid, userId := some uid,
                           time := now }
          else some cr
      | none => none }

/- Dispatch of the leave phase on the old channel id, lines 433-453. -/
def chLeaveStep (s : ServerState) (cid chid : String) (client : ClientData) :
    ServerState :=
  match client.channelId with
  | some old => if old ≠ chid then chLeaveOld s cid old else s
  | none => s

def chLeaveMsgs (s : ServerState) (cid chid : String) (client : ClientData) :
    List (String × Msg) :=
  match client.channelId with
  | some old =>
      if old ≠ chid then broadcastToChannel s old (Msg.byeMsg cid) (some cid)
      else []
  | none => []

def handleChannelCore (now : Nat) (s : ServerState) (cid chid : String)
    (client : ClientData) : ServerState × List (String × Msg) :=
  let sA := chCreate now s chid
  let msgsA :=
    if (alGet s.channels chid).isSome then [] else broadcastLsUpdate sA chid false
  let sB := chLeaveStep sA cid chid client
  let msgsB := chLeaveMsgs sB cid chid client
  let part :=
    match client.participant with
    | some p => p
    | none => defaultParticipant cid client.userId
  let client2 := { client with channelId := some chid, participant := some part }
  let sC := { sB with clients := alSet sB.clients cid client2 }
  match alGet sC.channels chid with
  | none => (sC, msgsA ++ msgsB)
  | some ch =>
      let ch2 := joinedChannel now cid client.userId part ch
      let sD := { sC with channels := alSet sC.channels chid ch2 }
      (sD, msgsA ++ msgsB
        ++ sendToClient sD cid
             (Msg.chMsg ch2.chanId ch2.settings ch2.crown
               (ch2.participants.map Prod.snd) (some cid))
        ++ sendToClient sD cid (Msg.cMsg ch2.chatHistory)
        ++ broadcastToChannel sD chid
             (Msg.pMsg cid part.uid part.name part.color part.x part.y) (some cid)
        ++ broadcastLsUpdate sD chid false)

def handleChannel (now : Nat) (s : ServerState) (cid : String)
    (target : Option String) : ServerState × List (String × Msg) :=
  match target with
  | none => (s, [])
  | some tgt =>
      let chid := if strLen tgt > 512 then "lobby" else tgt
      match alGet s.clients cid with
      | none => (s, [])
      | some client =>
          match alGet s.bannedUsers client.userId with
          | some ban =>
              if ban.channelId = chid ∧ now < ban.expiry then
                (s, sendToClient s cid (Msg.banNotice chid ban.expiry))
              else handleChannelCore now s cid chid client
          | none => handleChannelCore now s cid chid client

/- chset, lines 529-591. -/
structure ChsetData where
  color : Option String
  visible : Option Bool
  chat : Option Bool
  crownsolo : Option Bool
deriving DecidableEq

def handleChset (s : ServerState) (cid : String) (sd : Option ChsetData) :
    ServerState × List (String × Msg) :=
  match sd with
  | none => (s, [])
  | some st =>
    match alGet s.clients cid with
    | none => (s, [])
    | some client =>
      match client.channelId with
      | none => (s, [])
      | some chid =>
        match alGet s.channels chid with
        | none => (s, [])
        | some ch =>
            let holderOk : Bool :=
              match ch.crown with
              | some cr => decide (cr.participantId = some cid)
              | none => true
            if ¬holderOk then (s, [])
            else if ch.chanId = "lobby" ∨ strStartsWith ch.chanId "test/" then
              (s, [])
            else
              let st2 := { ch.settings with
                color := match st.color with
                         | some c => c
                         | none => ch.settings.color,
                visible := match st.visible with
                           | some v => v
                           | none => ch.settings.visible,
                chat := match st.chat with
                        | some b => some b
                        | none => ch.settings.chat,
                crownsolo := match st.crownsolo with
                             | some b => some b
                             | none => ch.settings.crownsolo }
              let ch2 := { ch with settings := st2 }
              let s1 := { s with channels := alSet s.channels chid ch2 }
              (s1, broadcastToChannel s1 chid
                     (Msg.chMsg ch2.chanId ch2.settings ch2.crown
                       (ch2.participants.map Prod.snd) none) none
                   ++ broadcastLsUpdate s1 chid false)

/- chown, lines 593-672.  When data.id names a client that is absent from the
   clients map the crown is left unchanged but the update is still broadcast;
   when the named client exists but has no participant the handler returns
   without broadcasting; the target is never required to be a member of the
   channel. -/
def handleChown (now : Nat) (s : ServerState) (cid : String)
    (targetId : Option String) : ServerState × List (String × Msg) :=
  match alGet s.clients cid with
  | none => (s, [])
  | some client =>
    match client.channelId with
    | none => (s, [])
    | some chid =>
      match client.participant with
      | none => (s, [])
      | some part =>
        match alGet s.channels chid with
        | none => (s, [])
        | some ch =>
            if ch.settings.lobby then (s, [])
            else
              match ch.crown with
              | none => (s, [])
              | some cr =>
                  if cr.participantId ≠ some cid then (s, [])
                  else
                    let newCrown : Option Crown :=
                      match targetId with
                      | some tid =>
                          (match alGet s.clients tid with
                          | none => some cr
                          | some target =>
                              match target.participant with
                              | none => none
                              | some tp =>
                                  some { participantId := some tid,
                                         userId := some target.userId,
                                         time := now,
                                         startPos := { x := part.x, y := part.y },
                                         endPos := { x := tp.x, y := tp.y } })
                      | none =>
                          some { participantId := none,
                                 userId := some part.uid,
                                 time := now,
                                 startPos := { x := part.x, y := part.y },
                                 endPos := { x := part.x, y := part.y } }
                    match newCrown with
                    | none => (s, [])
                    | some nc =>
                        let ch2 := { ch with crown := some nc }
                        let s1 := { s with channels := alSet s.channels chid ch2 }
                        (s1, broadcastToChannel s1 chid
                          (Msg.chMsg ch2.chanId ch2.settings ch2.crown
                            (ch2.participants.map Prod.snd) none) none)

/- kickban, lines 674-778.  The ban is recorded before the forced switch to
   test/awkward, so the redirect passes the ban check (the ban names the
   original channel). -/
def handleKickban (now : Nat) (s : ServerState) (cid : String)
    (targetUid : Option String) (ms : Option Nat) :
    ServerState × List (String × Msg) :=
  match targetUid, ms with
  | some tuid, some msv =>
      (let dur := min msv 86400000
      match alGet s.clients cid with
      | none => (s, [])
      | some client =>
        match client.channelId with
        | none => (s, [])
        | some chid =>
          match client.participant with
          | none => (s, [])
          | some part =>
            match alGet s.channels chid with
            | none => (s, [])
            | some ch =>
                if ch.settings.lobby then (s, [])
                else
                  let holderOk : Bool :=
                    match ch.crown with
                    | some cr => decide (cr.participantId = some cid)
                    | none => true
                  if ¬holderOk then (s, [])
                  else
                    match s.clients.find? (fun kv =>
                        kv.snd.userId == tuid && kv.snd.channelId == some chid) with
                    | none => (s, [])
                    | some kv =>
                        let tcid := kv.fst
                        let tname :=
                          match kv.snd.participant with
                          | some p => p.name
                          | none => ""
                        let ban : BanInfo := { channelId := chid, expiry := now + dur }
                        let s1 := { s with bannedUsers := alSet s.bannedUsers tuid ban }
                        let chRes := handleChannel now s1 tcid (some "test/awkward")
                        let s2 := chRes.fst
                        (s2, chRes.snd
                          ++ sendToClient s2 tcid
                               (Msg.kickTargetNotice chid (dur / 1000))
                          ++ broadcastToChannel s2 chid
                               (Msg.kickBroadcastNotice part.name tname (dur / 1000)
                                 (decide (tuid = client.userId))) none))
  | _, _ => (s, [])

/- unban, lines 780-827. -/
def handleUnban (s : ServerState) (cid : String) (targetUid : Option String) :
    ServerState × List (String × Msg) :=
  match targetUid with
  | none => (s, [])
  | some tuid =>
    match alGet s.clients cid with
    | none => (s, [])
    | some client =>
      match client.channelId with
      | none => (s, [])
      | some chid =>
        match alGet s.channels chid with
        | none => (s, [])
        | some ch =>
            if ch.settings.lobby then (s, [])
            else
              let holderOk : Bool :=
                match ch.crown with
                | some cr => decide (cr.participantId = some cid)
                | none => true
              if ¬holderOk then (s, [])
              else
                let s1 := { s with bannedUsers := alErase s.bannedUsers tuid }
                (s1, broadcastToChannel s1 chid (Msg.unbanNotice tuid) none)

/- devices, lines 829-839. -/
def handleDevices (s : ServerState) (cid : String) (list : Option Nat) :
    ServerState × List (String × Msg) :=
  match list with
  | none => (s, [])
  | some l => (s, sendToClient s cid (Msg.devMsg l))

/- Connection setup, src/server.rs lines 45-71: a fresh ClientData is created
   when the id is new, and the outbound sender is (re)registered. -/
def connectOp (s : ServerState) (cid : String) : ServerState :=
  let fresh : ClientData :=
    { userId := cid, participant := none, channelId := none,
      lastMoveTime := none, noteQuota := NoteQuota.new }
  let s1 :=
    if (alGet s.clients cid).isSome then s
    else { s with clients := alSet s.clients cid fresh }
  { s1 with wsSenders := subAdd s1.wsSenders cid }

/- Connection teardown, src/server.rs lines 131-133: the disconnect routine
   runs and then the wsSenders entry is removed.  The bye handler
   (src/handlers.rs lines 108-110) runs only the disconnect routine. -/
def closeOp (now : Nat) (s : ServerState) (cid : String) : ServerState :=
  let s1 := (handleDisconnect now s cid).fst
  { s1 with wsSenders := subRemove s1.wsSenders cid }

/- Quota ticker, src/server.rs lines 29-40. -/
def tickAllOp (s : ServerState) : ServerState :=
  let ticked := s.clients.map
    (fun kv => (kv.fst, { kv.snd with noteQuota := kv.snd.noteQuota.tick }))
  { s with clients := ticked }

/- One step of the whole system: any connection event, any inbound protocol
   event on any connection, a transport close, or a quota tick. -/
inductive Step : ServerState → ServerState → Prop where
  | connect (s : ServerState) (cid : String) : Step s (connectOp s cid)
  | close (s : ServerState) (now : Nat) (cid : String) : Step s (closeOp now s cid)
  | hi (s : ServerState) (now : Nat) (cid : String) :
      Step s (handleHi now s cid).fst
  | bye (s : ServerState) (now : Nat) (cid : String) :
      Step s (handleDisconnect now s cid).fst
  | plusLs (s : ServerState) (cid : String) : Step s (handlePlusLs s cid).fst
  | minusLs (s : ServerState) (cid : String) : Step s (handleMinusLs s cid).fst
  | timeEv (s : ServerState) (now : Nat) (cid : String) (e : Option Int) :
      Step s (handleTime now s cid e).fst
  | chat (s : ServerState) (now : Nat) (cid : String) (m : Option String) :
      Step s (handleChat now s cid m).fst
  | note (s : ServerState) (now : Nat) (cid : String) (t : Option Int)
      (n : Option (List Nat)) : Step s (handleNote now s cid t n).fst
  | move (s : ServerState) (now : Nat) (cid : String) (x y : Option Int) :
      Step s (handleMovement now s cid x y).fst
  | userset (s : ServerState) (cid : String) (nm col : Option String) :
      Step s (handleUserset s cid nm col).fst
  | chEv (s : ServerState) (now : Nat) (cid : String) (target : Option String) :
      Step s (handleChannel now s cid target).fst
  | chset (s : ServerState) (cid : String) (sd : Option ChsetData) :
      Step s (handleChset s cid sd).fst
  | chown (s : ServerState) (now : Nat) (cid : String) (tid : Option String) :
      Step s (handleChown now s cid tid).fst
  | kickban (s : ServerState) (now : Nat) (cid : String) (tuid : Option String)
      (ms : Option Nat) : Step s (handleKickban now s cid tuid ms).fst
  | unban (s : ServerState) (cid : String) (tuid : Option String) :
      Step s (handleUnban s cid tuid).fst
  | devices (s : ServerState) (cid : String) (l : Option Nat) :
      Step s (handleDevices s cid l).fst
  | tick (s : ServerState) : Step s (tickAllOp s)

/- States reachable from the empty registry the process starts with. -/
inductive Reachable : ServerState → Prop where
  | init : Reachable initState
  | more {s t : ServerState} : Reachable s → Step s t → Reachable t

/- Invariant shapes used by the theorems below. -/

/- Quota bounds invariant of spec section 8. -/
def NQInv (q : NoteQuota) : Prop :=
  0 ≤ q.points ∧ q.points ≤ q.max ∧ q.history.length = q.maxHistLen

/- Every channel of the map has an empty chat history. -/
def ChatInvL (l : List (String × Channel)) : Prop :=
  ∀ chid ch, alGet l chid = some ch → ch.chatHistory = []

/- Concrete executions and states used by individual claim theorems. -/

/- Two connections; alice creates room1 (and so holds its crown), bob only
   completes the hi handshake and is joined to no channel; alice then sends
   chown naming bob. -/
def c1s0 : ServerState := connectOp (connectOp initState "alice") "bob"

def c1s1 : ServerState := (handleChannel 0 c1s0 "alice" (some "room1")).fst

def c1s2 : ServerState := (handleHi 0 c1s1 "bob").fst

def c1s3 : ServerState := (handleChown 1 c1s2 "alice" (some "bob")).fst

/- carol creates room1 (sole participant), then switches to the lobby. -/
def c2s1 : ServerState :=
  (handleChannel 0 (connectOp initState "carol") "carol" (some "room1")).fst

def c2s2 : ServerState := (handleChannel 1 c2s1 "carol" (some "lobby")).fst

/- A directory subscriber sub watches while dave, alone in room1, disconnects. -/
def c5s2 : ServerState :=
  (handleChannel 0
    (handlePlusLs (connectOp (connectOp initState "sub") "dave") "sub").fst
    "dave" (some "room1")).fst

def c5res : ServerState × List (String × Msg) := handleDisconnect 1 c5s2 "dave"

/- A single fresh connection. -/
def c6s0 : ServerState := connectOp initState "eve"

/- room1 with crownsolo enabled and a present but unheld crown; frank and
   grace are joined, frank has a full quota. -/
def c3client (cid : String) : ClientData :=
  { userId := cid, participant := some (defaultParticipant cid cid),
    channelId := some "room1", lastMoveTime := none, noteQuota := NoteQuota.new }

def c3chan : Channel :=
  { chanId := "room1",
    settings := { color := "#ecfaed", color2 := none, lobby := false,
                  visible := true, chat := none, crownsolo := some true },
    crown := some { participantId := none, userId := some "frank", time := 0,
                    startPos := { x := 0, y := 0 }, endPos := { x := 0, y := 0 } },
    participants := [("frank", defaultParticipant "frank" "frank"),
                     ("grace", defaultParticipant "grace" "grace")],
    chatHistory := [] }

def c3state : ServerState :=
  { channels := [("room1", c3chan)],
    clients := [("frank", c3client "frank"), ("grace", c3client "grace")],
    subscribedToLs := [], bannedUsers := [], wsSenders := ["frank", "grace"] }

/- room2 with chat enabled and harry joined as its sole member. -/
def c7chan : Channel :=
  { chanId := "room2",
    settings := { color := "#ecfaed", color2 := none, lobby := false,
                  visible := true, chat := some true, crownsolo := none },
    crown := some { participantId := some "harry", userId := some "harry",
                    time := 0, startPos := { x := 0, y := 0 },
                    endPos := { x := 0, y := 0 } },
    participants := [("harry", defaultParticipant "harry" "harry")],
    chatHistory := [] }

def c7client : ClientData :=
  { userId := "harry", participant := some (defaultParticipant "harry" "harry"),
    channelId := some "room2", lastMoveTime := none, noteQuota := NoteQuota.new }

def c7state : ServerState :=
  { channels := [("room2", c7chan)], clients := [("harry", c7client)],
    subscribedToLs := [], bannedUsers := [], wsSenders := ["harry"] }

/- A client whose quota is exhausted (zero points with an all-zero window, so
   any positive spend costs a full allowance and is rejected). -/
def c4quota : NoteQuota :=
  { points := 0, allowance := 8000, max := 24000, maxHistLen := 3,
    history := [0, 0, 0] }

def c4client : ClientData :=
  { userId := "wilma", participant := none, channelId := none,
    lastMoveTime := none, noteQuota := c4quota }

def c4state : ServerState :=
  { channels := [], clients := [("wilma", c4client)], subscribedToLs := [],
    bannedUsers := [], wsSenders := ["wilma"] }

/- A quota part way through refilling, used as a concrete tick example. -/
def c8q : NoteQuota :=
  { points := 7, allowance := 8000, max := 24000, maxHistLen := 3,
    history := [24000, 24000, 24000] }

/- A full quota whose sliding window has been spent to zero: reachable by
   saturating spends across three ticks.  A note frame of 268436 notes then
   makes needed * allowance = 2147488000, which overflows i32. -/
def c4bigq : NoteQuota :=
  { points := 24000, allowance := 8000, max := 24000, maxHistLen := 3,
    history := [0, 0, 0] }

/- Helper lemmas about the association list and set helpers. -/

theorem alGet_alSet {α : Type} (m : List (String × α)) (k k2 : String) (v : α) :
    alGet (alSet m k v) k2 = if k2 = k then some v else alGet m k2 := by
  induction m with
  | nil =>
      by_cases h : k2 = k
      · simp [alSet, alGet, h]
      · simp [alSet, alGet, h, Ne.symm h]
  | cons kv rest ih =>
      obtain ⟨k1, v1⟩ := kv
      by_cases h1 : k1 = k
      · subst h1
        by_cases h2 : k2 = k1
        · simp [alSet, alGet, h2]
        · simp [alSet, alGet, h2, Ne.symm h2]
      · by_cases h2 : k1 = k2
        · subst h2
          simp [alSet, alGet, h1, Ne.symm h1]
        · simp [alSet, alGet, h1, h2, ih]

theorem alGet_alErase {α : Type} (m : List (String × α)) (k k2 : String) :
    alGet (alErase m k) k2 = if k2 = k then none else alGet m k2 := by
  induction m with
  | nil => simp [alErase, alGet]
  | cons kv rest ih =>
      obtain ⟨k1, v1⟩ := kv
      by_cases h1 : k1 = k
      · subst h1
        by_cases h2 : k2 = k1
        · subst h2
          simp [alErase, alGet, ih]
        · simp [alErase, alGet, h2, Ne.symm h2, ih]
      · by_cases h2 : k1 = k2
        · subst h2
          simp [alErase, alGet, h1, Ne.symm h1]
        · simp [alErase, alGet, h1, h2, ih]

theorem alSet_self {α : Type} (m : List (String × α)) (k : String) (v : α)
    (h : alGet m k = some v) : alSet m k v = m := by
  induction m with
  | nil => simp [alGet] at h
  | cons kv rest ih =>
      obtain ⟨k1, v1⟩ := kv
      by_cases h1 : k1 = k
      · subst h1
        simp [alGet] at h
        simp [alSet, h]
      · simp [alGet, h1] at h
        simp [alSet, h1, ih h]

theorem memb_subRemove (l : List String) (k k2 : String) :
    memb (subRemove l k) k2 = if k2 = k then false else memb l k2 := by
  induction l with
  | nil => simp [subRemove, memb]
  | cons x rest ih =>
      by_cases h1 : x = k
      · subst h1
        by_cases h2 : k2 = x
        · subst h2
          simp [subRemove, memb, ih]
        · simp [subRemove, memb, h2, Ne.symm h2, ih]
      · by_cases h2 : x = k2
        · subst h2
          simp [subRemove, memb, h1, Ne.symm h1]
        · simp [subRemove, memb, h1, h2, ih]

/- Helper lemmas about NoteQuota. -/

theorem spend_cases (q : NoteQuota) (n : Int) :
    q.spend n =
      (if q.points <
          (if wrap32 q.history.sum ≤ 0 then wrap32 (n * q.allowance) else n)
       then (false, q)
       else (true, { q with points := wrap32 (q.points -
         (if wrap32 q.history.sum ≤ 0 then wrap32 (n * q.allowance) else n)) })) := by
  unfold NoteQuota.spend
  rfl

theorem tick_points (q : NoteQuota) (ha : 0 ≤ q.allowance) (h1 : q.points ≤ q.max) :
    q.tick.points = min q.max (q.points + q.allowance) := by
  show (if q.points < q.max then
          (if q.points + q.allowance > q.max then q.max else q.points + q.allowance)
        else q.points) = min q.max (q.points + q.allowance)
  rw [Int.min_def]
  split_ifs <;> omega

theorem tick_allowance (q : NoteQuota) : q.tick.allowance = q.allowance := rfl

theorem tick_max (q : NoteQuota) : q.tick.max = q.max := rfl

theorem spend_snd_of_false (q : NoteQuota) (n : Int)
    (h : (q.spend n).fst = false) : (q.spend n).snd = q := by
  rw [spend_cases] at h ⊢
  split_ifs at h ⊢ <;> simp_all

/-- C8: NoteQuota.tick prepends the current points value to history and
truncates it to maxHistLen, then sets points to min(max, points + allowance);
consequently, with allowance 8000 and max 24000, starting from any points
value in [0, max], four ticks with no intervening spend leave points at
24000. -/
theorem c8_tick (q : NoteQuota) (ha : q.allowance = 8000) (hm : q.max = 24000)
    (h0 : 0 ≤ q.points) (h1 : q.points ≤ q.max) :
    q.tick.history = (q.points :: q.history).take q.maxHistLen ∧
    q.tick.points = min q.max (q.points + q.allowance) ∧
    q.tick.tick.tick.tick.points = 24000 := by
  have step : ∀ r : NoteQuota, r.allowance = 8000 → r.max = 24000 →
      r.points ≤ 24000 →
      r.tick.points = min 24000 (r.points + 8000) ∧
      r.tick.allowance = 8000 ∧ r.tick.max = 24000 := by
    intro r hra hrm hrp
    refine ⟨?_, by rw [tick_allowance]; exact hra, by rw [tick_max]; exact hrm⟩
    have h := tick_points r (by omega) (by omega)
    rw [hra, hrm] at h
    exact h
  obtain ⟨e1, a1, m1⟩ := step q ha hm (by omega)
  obtain ⟨e2, a2, m2⟩ := step q.tick a1 m1 (by omega)
  obtain ⟨e3, a3, m3⟩ := step q.tick.tick a2 m2 (by omega)
  obtain ⟨e4, a4, m4⟩ := step q.tick.tick.tick a3 m3 (by omega)
  exact ⟨rfl, tick_points q (by omega) h1, by omega⟩

theorem c8_tick_witness :
    c8q.allowance = 8000 ∧ c8q.max = 24000 ∧ (0:Int) ≤ c8q.points ∧
    c8q.points ≤ c8q.max ∧
    (c8q.tick.history = (c8q.points :: c8q.history).take c8q.maxHistLen ∧
     c8q.tick.points = min c8q.max (c8q.points + c8q.allowance) ∧
     c8q.tick.tick.tick.tick.points = 24000) :=
  ⟨by decide, by decide, by decide, by decide,
   c8_tick c8q (by decide) (by decide) (by decide) (by decide)⟩

/-- C9 counterexample: the original claim fails on the code.  The quota
c4bigq satisfies the bounds invariant, 268436 is nonnegative, yet a spend of
268436 notes under its nonpositive history window wraps the i32 need
multiply, is accepted, and leaves points far outside [0, max]. -/
theorem c9_counterexample :
    NQInv c4bigq ∧ (0:Int) ≤ 268436 ∧ (0:Int) ≤ c4bigq.allowance ∧
    ¬ NQInv (c4bigq.spend 268436).snd :=
  ⟨⟨by decide, by decide, by decide⟩, by decide, by decide,
   fun h => absurd h.1 (by decide)⟩

/-- C9 (amended): the quota bounds invariant (points in [0, max] and history
length equal to maxHistLen) holds for the quota NoteQuota.new gives every
fresh client and is preserved by tick, and by spend(n) with 0 ≤ n whenever
the i32 need computation does not overflow (wrap32 (n * allowance) equals
n * allowance) and max is within the i32 range; a spend whose need multiply
wraps can drive points out of [0, max]. -/
theorem c9_quota_bounds (q : NoteQuota) (n : Int) (hn : 0 ≤ n)
    (ha : 0 ≤ q.allowance) (hm : q.max ≤ 2147483647)
    (hnw : wrap32 (n * q.allowance) = n * q.allowance)
    (hq : NQInv q) :
    NQInv NoteQuota.new ∧ NQInv q.tick ∧ NQInv (q.spend n).snd := by
  obtain ⟨h0, h1, hlen⟩ := hq
  refine ⟨⟨by decide, by decide, by decide⟩, ?_, ?_⟩
  · have e := tick_points q ha h1
    refine ⟨by rw [e]; omega, ?_, ?_⟩
    · rw [tick_max, e]
      omega
    · show ((q.points :: q.history).take q.maxHistLen).length = q.maxHistLen
      simp [List.length_take]
      omega
  · have hneed :
        0 ≤ (if wrap32 q.history.sum ≤ 0 then wrap32 (n * q.allowance) else n) := by
      split_ifs
      · rw [hnw]
        exact mul_nonneg hn ha
      · exact hn
    rw [spend_cases]
    generalize hk :
      (if wrap32 q.history.sum ≤ 0 then wrap32 (n * q.allowance) else n) = k
      at hneed ⊢
    split_ifs with hlt
    · exact ⟨h0, h1, hlen⟩
    · have hid : wrap32 (q.points - k) = q.points - k := by
        unfold wrap32
        omega
      refine ⟨?_, ?_, ?_⟩
      · show 0 ≤ wrap32 (q.points - k)
        rw [hid]
        omega
      · show wrap32 (q.points - k) ≤ q.max
        rw [hid]
        omega
      · show q.history.length = q.maxHistLen
        exact hlen

theorem c9_quota_bounds_witness :
    (0:Int) ≤ 5 ∧ (0:Int) ≤ c4quota.allowance ∧
    c4quota.max ≤ 2147483647 ∧
    wrap32 (5 * c4quota.allowance) = 5 * c4quota.allowance ∧ NQInv c4quota ∧
    (NQInv NoteQuota.new ∧ NQInv c4quota.tick ∧ NQInv (c4quota.spend 5).snd) :=
  ⟨by decide, by decide, by decide, by decide,
   ⟨by decide, by decide, by decide⟩,
   c9_quota_bounds c4quota 5 (by decide) (by decide) (by decide) (by decide)
     ⟨by decide, by decide, by decide⟩⟩

/-- C4 counterexample: the original claim fails on the code.  With a full
quota whose history window sums to zero, a spend of 268436 notes has a
mathematical need of 268436 * 8000 = 2147488000 > points, so the claim
demands a rejected spend with the quota unchanged; the i32 multiply wraps
the need to a negative number, the spend is accepted, and points wraps to
-2147464000 (a debug build panics on the same overflow). -/
theorem c4_counterexample :
    c4bigq.history.sum ≤ 0 ∧
    c4bigq.points < 268436 * c4bigq.allowance ∧
    (c4bigq.spend 268436).fst = true ∧
    (c4bigq.spend 268436).snd.points = -2147464000 := by decide

/-- C4 (amended): NoteQuota.spend works in wrapping i32 arithmetic: need is
wrap32(n * allowance) when the wrapped history sum is nonpositive and n
otherwise; it returns false leaving the quota unchanged exactly when
points < need, and otherwise returns true setting points to
wrap32(points - need) — by exactly need whenever nothing overflows; in the
n handler a rejected spend produces only the fixed slow-down notification
to the sender, with no broadcast and no state change. -/
theorem c4_spend_rejection (q : NoteQuota) (n : Int) (hn : 0 ≤ n)
    (now : Nat) (s : ServerState) (cid : String) (client : ClientData)
    (t : Option Int) (notes : List Nat)
    (hc : alGet s.clients cid = some client)
    (hrej : (client.noteQuota.spend (notes.length : Int)).fst = false)
    (hws : memb s.wsSenders cid = true) :
    (q.points < (if wrap32 q.history.sum ≤ 0 then wrap32 (n * q.allowance) else n) →
        q.spend n = (false, q)) ∧
    ((if wrap32 q.history.sum ≤ 0 then wrap32 (n * q.allowance) else n) ≤ q.points →
        q.spend n = (true, { q with points := wrap32 (q.points -
          (if wrap32 q.history.sum ≤ 0 then wrap32 (n * q.allowance) else n)) })) ∧
    ((q.spend n).fst = false ↔
        q.points < (if wrap32 q.history.sum ≤ 0 then wrap32 (n * q.allowance) else n)) ∧
    handleNote now s cid t (some notes) =
      (s, [(cid, Msg.notifyMsg "You\x27re playing too fast! Slow down." "short" 2000)]) := by
  refine ⟨?_, ?_, ?_, ?_⟩
  · intro h
    rw [spend_cases, if_pos h]
  · intro h
    rw [spend_cases, if_neg (by omega)]
  · rw [spend_cases]
    generalize
      (if wrap32 q.history.sum ≤ 0 then wrap32 (n * q.allowance) else n) = k
    split_ifs with h
    · simpa using h
    · simpa using h
  · have hsnd := spend_snd_of_false client.noteQuota (notes.length : Int) hrej
    simp only [handleNote, hc, hrej, hsnd]
    rw [show ({ client with noteQuota := client.noteQuota } : ClientData) = client
          from rfl]
    rw [alSet_self s.clients cid client hc]
    simp [sendToClient, hws]

theorem c4_spend_rejection_witness :
    alGet c4state.clients "wilma" = some c4client ∧
    (c4client.noteQuota.spend (([1] : List Nat).length : Int)).fst = false ∧
    memb c4state.wsSenders "wilma" = true ∧
    handleNote 0 c4state "wilma" none (some [1]) =
      (c4state,
       [("wilma", Msg.notifyMsg "You\x27re playing too fast! Slow down." "short" 2000)]) :=
  ⟨by decide, by decide, by decide,
   (c4_spend_rejection c4quota 2 (by decide) 0 c4state "wilma" c4client none [1]
     (by decide) (by decide) (by decide)).2.2.2⟩

/-- C1: the crown-holder membership invariant fails on the code.  After the
concrete run in which alice creates room1 (holding its crown), bob completes
only the hi handshake (so he is joined to no channel), and alice sends chown
naming bob, the chown handler accepts the transfer: room1 ends with
crown.participantId = some "bob" while "bob" is not a key of its participants
map (alice still is).  The handler checks only that the target exists in the
clients map with a participant, never that it is joined to the channel. -/
theorem c1_crown_member_code_bug :
    ((alGet c1s3.channels "room1").map
      (fun ch => ((ch.crown.map fun cr => cr.participantId),
                  alGet ch.participants "bob",
                  (alGet ch.participants "alice").isSome)))
      = some (some (some "bob"), none, true) := by decide

/-- C2: the empty-channel deletion invariant fails on the code.  After carol,
alone in the non-special channel room1, switches to the lobby, room1 is still
present in the channels map with an empty participants map: the ch handler
removes the leaving client from the old channel but never deletes it. -/
theorem c2_empty_channel_code_bug :
    ((alGet c2s2.channels "room1").map fun ch => ch.participants) = some [] := by
  decide

/-- C5: when the sole remaining participant of the non-special channel room1
disconnects while sub is a directory subscriber with a live sender, the
channel is indeed removed, but the disconnect emits no frame at all: the
broadcast_ls_update call happens after the channel was removed from the map,
looks the channel up again, finds nothing and returns, so no subscriber
receives any ls update. -/
theorem c5_ls_update_code_bug :
    alGet c5res.fst.channels "room1" = none ∧
    memb c5res.fst.subscribedToLs "sub" = true ∧
    memb c5res.fst.wsSenders "sub" = true ∧
    c5res.snd = [] := by decide

/-- C6 counterexample: a disconnect triggered by a bye event runs only the
disconnect routine, which does not touch wsSenders, so the disconnected id
is still a wsSenders key afterwards (while its ClientData is gone),
contradicting the claim that after any disconnect the id is absent from
wsSenders. -/
theorem c6_counterexample :
    memb (handleDisconnect 0 c6s0 "eve").fst.wsSenders "eve" = true ∧
    alGet (handleDisconnect 0 c6s0 "eve").fst.clients "eve" = none := by decide

/-- C3 counterexample: in room1 with crownsolo = true and a crown that is
present but unheld (participantId = none), a note event from frank, whose
spend succeeds and who is joined to room1 together with grace, is dropped
with no broadcast, although the claim requires it to be broadcast to grace
in exactly this unheld-crown case. -/
theorem c3_counterexample :
    ((c3client "frank").noteQuota.spend (([60] : List Nat).length : Int)).fst
      = true ∧
    (alGet c3state.clients "frank").map (fun c => c.channelId)
      = some (some "room1") ∧
    c3chan.settings.crownsolo = some true ∧
    (c3chan.crown.map fun cr => cr.participantId) = some none ∧
    (alGet c3chan.participants "grace").isSome = true ∧
    (handleNote 5 c3state "frank" none (some [60])).snd = [] := by decide

/-- C7 counterexample: an empty chat message from harry, a member of room2
whose settings have chat = true, is broadcast to the whole channel rather
than dropped, although the claim requires non-empty messages only. -/
theorem c7_counterexample :
    byteLen "" = 0 ∧
    c7chan.settings.chat = some true ∧
    (handleChat 3 c7state "harry" (some "")).snd
      = [("harry", Msg.chatMsg "" (defaultParticipant "harry" "harry") 3)] := by
  decide

/-- C6 (amended): a disconnect triggered by the transport closing or erroring
removes the connection id from every participants map, from subscribedToLs,
from clients and from wsSenders; a disconnect triggered by a bye event does
the same except that the wsSenders entry survives until the connection loop
exits.  The hypothesis confines the id to the channel its ClientData names,
which is how the handlers keep the maps. -/
theorem c6_disconnect_cleanup (now : Nat) (s : ServerState) (cid : String)
    (hconf : ∀ chid ch, alGet s.channels chid = some ch →
        (alGet ch.participants cid).isSome →
        ∃ cl, alGet s.clients cid = some cl ∧ cl.channelId = some chid) :
    (∀ chid ch, alGet (handleDisconnect now s cid).fst.channels chid = some ch →
        alGet ch.participants cid = none) ∧
    memb (handleDisconnect now s cid).fst.subscribedToLs cid = false ∧
    alGet (handleDisconnect now s cid).fst.clients cid = none ∧
    (∀ chid ch, alGet (closeOp now s cid).channels chid = some ch →
        alGet ch.participants cid = none) ∧
    memb (closeOp now s cid).subscribedToLs cid = false ∧
    alGet (closeOp now s cid).clients cid = none ∧
    memb (closeOp now s cid).wsSenders cid = false := by
  have hsub : ∀ l : List String, memb (subRemove l cid) cid = false := by
    intro l
    rw [memb_subRemove]
    simp
  have hcl : ∀ m : List (String × ClientData), alGet (alErase m cid) cid = none := by
    intro m
    rw [alGet_alErase]
    simp
  have hchan : ∀ chid ch,
      alGet (handleDisconnect now s cid).fst.channels chid = some ch →
      alGet ch.participants cid = none := by
    intro chid ch hget
    rcases hc : alGet s.clients cid with _ | client
    · have e : (handleDisconnect now s cid).fst.channels = s.channels := by
        simp only [handleDisconnect, hc]
      rw [e] at hget
      cases hp : alGet ch.participants cid with
      | none => rfl
      | some p =>
          exfalso
          obtain ⟨cl, hcl2, _⟩ := hconf chid ch hget (by rw [hp]; rfl)
          rw [hc] at hcl2
          exact Option.noConfusion hcl2
    · rcases hcc : client.channelId with _ | chid0
      · have e : (handleDisconnect now s cid).fst.channels = s.channels := by
          simp only [handleDisconnect, hc, hcc]
        rw [e] at hget
        cases hp : alGet ch.participants cid with
        | none => rfl
        | some p =>
            exfalso
            obtain ⟨cl, hcl2, hcl3⟩ := hconf chid ch hget (by rw [hp]; rfl)
            rw [hc] at hcl2
            injection hcl2 with h2
            subst h2
            rw [hcc] at hcl3
            exact Option.noConfusion hcl3
      · have notElse : ∀ chid2 ch2, alGet s.channels chid2 = some ch2 →
            chid2 ≠ chid0 → alGet ch2.participants cid = none := by
          intro chid2 ch2 hg hne
          cases hp : alGet ch2.participants cid with
          | none => rfl
          | some p =>
              exfalso
              obtain ⟨cl, hcl2, hcl3⟩ := hconf chid2 ch2 hg (by rw [hp]; rfl)
              rw [hc] at hcl2
              injection hcl2 with h2
              subst h2
              rw [hcc] at hcl3
              injection hcl3 with h3
              exact hne h3.symm
        rcases hch0 : alGet s.channels chid0 with _ | ch0
        · have e : (handleDisconnect now s cid).fst.channels = s.channels := by
            simp only [handleDisconnect, hc, hcc, hch0]
          rw [e] at hget
          cases hp : alGet ch.participants cid with
          | none => rfl
          | some p =>
              exfalso
              obtain ⟨cl, hcl2, hcl3⟩ := hconf chid ch hget (by rw [hp]; rfl)
              rw [hc] at hcl2
              injection hcl2 with h2
              subst h2
              rw [hcc] at hcl3
              injection hcl3 with h3
              subst h3
              rw [hch0] at hget
              exact Option.noConfusion hget
        · simp only [handleDisconnect, hc, hcc, hch0] at hget
          split at hget
          · dsimp only at hget
            rw [alGet_alErase] at hget
            split_ifs at hget with hx
            rw [alGet_alSet, if_neg hx] at hget
            exact notElse chid ch hget hx
          · dsimp only at hget
            rw [alGet_alSet] at hget
            split_ifs at hget with hx
            · injection hget with h4
              subst h4
              show alGet (alErase ch0.participants cid) cid = none
              rw [alGet_alErase]
              simp
            · exact notElse chid ch hget hx
  refine ⟨hchan, hsub _, hcl _, ?_, hsub _, hcl _, hsub _⟩
  intro chid ch hg
  exact hchan chid ch hg

theorem c6_disconnect_cleanup_witness :
    (∀ chid ch, alGet (handleDisconnect 0 c6s0 "eve").fst.channels chid = some ch →
        alGet ch.participants "eve" = none) ∧
    memb (handleDisconnect 0 c6s0 "eve").fst.subscribedToLs "eve" = false ∧
    alGet (handleDisconnect 0 c6s0 "eve").fst.clients "eve" = none ∧
    (∀ chid ch, alGet (closeOp 0 c6s0 "eve").channels chid = some ch →
        alGet ch.participants "eve" = none) ∧
    memb (closeOp 0 c6s0 "eve").subscribedToLs "eve" = false ∧
    alGet (closeOp 0 c6s0 "eve").clients "eve" = none ∧
    memb (closeOp 0 c6s0 "eve").wsSenders "eve" = false :=
  c6_disconnect_cleanup 0 c6s0 "eve" (by
    intro chid ch hg
    have hgN : alGet ([] : List (String × Channel)) chid = some ch := hg
    exact Option.noConfusion hgN)

/- Membership characterization of a channel broadcast. -/

theorem excludeOk_some (e pid : String) : excludeOk (some e) pid = true ↔ pid ≠ e := by
  simp only [excludeOk]
  split_ifs with h
  · simp [h]
  · simp [h]

theorem mem_broadcastToChannel (s : ServerState) (chid : String) (ch : Channel)
    (hch : alGet s.channels chid = some ch) (msg : Msg) (exclude : Option String)
    (pid : String) (m2 : Msg) :
    ((pid, m2) ∈ broadcastToChannel s chid msg exclude) ↔
      (m2 = msg ∧ (∃ part, (pid, part) ∈ ch.participants) ∧
       excludeOk exclude pid = true ∧ memb s.wsSenders pid = true) := by
  simp only [broadcastToChannel, hch]
  constructor
  · intro hm
    obtain ⟨kv, hkv, heq⟩ := List.mem_map.mp hm
    obtain ⟨hkv2, hpred⟩ := List.mem_filter.mp hkv
    obtain ⟨he, hw⟩ := Bool.and_eq_true_iff.mp hpred
    rw [Prod.mk.injEq] at heq
    obtain ⟨h1, h2⟩ := heq
    subst h1
    subst h2
    exact ⟨rfl, ⟨kv.snd, hkv2⟩, he, hw⟩
  · rintro ⟨rfl, ⟨part, hp⟩, he, hw⟩
    exact List.mem_map.mpr
      ⟨(pid, part), List.mem_filter.mpr ⟨hp, by simp [he, hw]⟩, rfl⟩

/-- C3 (amended): for a sender who is in a channel and whose quota spend
succeeds, the n handler drops the event exactly when the channel has
crownsolo = true and a crown whose holder field differs from some(sender) —
which includes a present but unheld crown — and otherwise broadcasts the
note frame to every live participant of the channel except the sender. -/
theorem c3_crownsolo_gate (now : Nat) (s : ServerState) (cid : String)
    (t : Option Int) (notes : List Nat) (client : ClientData) (chid : String)
    (ch : Channel)
    (hc : alGet s.clients cid = some client)
    (hcid : client.channelId = some chid)
    (hch : alGet s.channels chid = some ch)
    (hspend : (client.noteQuota.spend (notes.length : Int)).fst = true) :
    ((ch.settings.crownsolo = some true ∧
      ∃ cr, ch.crown = some cr ∧ cr.participantId ≠ some cid) →
        (handleNote now s cid t (some notes)).snd = []) ∧
    (¬(ch.settings.crownsolo = some true ∧
       ∃ cr, ch.crown = some cr ∧ cr.participantId ≠ some cid) →
      ∀ pid m2, ((pid, m2) ∈ (handleNote now s cid t (some notes)).snd ↔
        (m2 = Msg.noteMsg t notes cid ∧
         (∃ part, (pid, part) ∈ ch.participants) ∧
         pid ≠ cid ∧ memb s.wsSenders pid = true))) := by
  constructor
  · rintro ⟨hcs, cr, hcr, hne⟩
    simp [handleNote, hc, hcid, hspend, hch, hcs, hcr, hne]
  · intro hno pid m2
    have hb : (handleNote now s cid t (some notes)).snd =
        broadcastToChannel s chid (Msg.noteMsg t notes cid) (some cid) := by
      rcases hcs : ch.settings.crownsolo with _ | b
      · simp [handleNote, hc, hcid, hspend, hch, hcs]
        rfl
      · cases b
        · simp [handleNote, hc, hcid, hspend, hch, hcs]
          rfl
        · rcases hcr : ch.crown with _ | cr
          · simp [handleNote, hc, hcid, hspend, hch, hcs, hcr]
            rfl
          · have hpid : cr.participantId = some cid := by
              by_contra hne
              exact hno ⟨hcs, cr, hcr, hne⟩
            simp [handleNote, hc, hcid, hspend, hch, hcs, hcr, hpid]
            rfl
    rw [hb,
      mem_broadcastToChannel s chid ch hch (Msg.noteMsg t notes cid) (some cid)
        pid m2,
      excludeOk_some]

theorem c3_crownsolo_gate_witness :
    alGet c3state.clients "frank" = some (c3client "frank") ∧
    (c3client "frank").channelId = some "room1" ∧
    alGet c3state.channels "room1" = some c3chan ∧
    ((c3client "frank").noteQuota.spend (([60] : List Nat).length : Int)).fst
      = true ∧
    ((c3chan.settings.crownsolo = some true ∧
      ∃ cr, c3chan.crown = some cr ∧ cr.participantId ≠ some "frank") →
        (handleNote 5 c3state "frank" none (some [60])).snd = []) :=
  ⟨by decide, by decide, by decide, by decide,
   (c3_crownsolo_gate 5 c3state "frank" none [60] (c3client "frank") "room1"
     c3chan (by decide) (by decide) (by decide) (by decide)).1⟩

/-- C7 (amended): a chat event is broadcast to the whole channel including
the sender (as the a frame carrying message, participant and time) exactly
when the sender is a channel member with a participant, the message field
is present with UTF-8 byte length at most 256, and the channel settings
have chat = true; the message may be empty.  In every other case — missing
message field, oversized message, unknown client, client in no channel,
client without a participant, vanished channel, or chat disabled — the
event is silently dropped with no reply, and the handler never changes the
state. -/
theorem c7_chat_gate (now : Nat) (s : ServerState) (cid message : String) :
    ((handleChat now s cid (some message)).fst = s ∧
     handleChat now s cid none = (s, [])) ∧
    (∀ client chid part ch,
        alGet s.clients cid = some client →
        client.channelId = some chid →
        client.participant = some part →
        alGet s.channels chid = some ch →
        ((byteLen message ≤ 256 ∧ ch.settings.chat = some true →
          ∀ pid m2, ((pid, m2) ∈ (handleChat now s cid (some message)).snd ↔
            (m2 = Msg.chatMsg message part now ∧
             (∃ p2, (pid, p2) ∈ ch.participants) ∧
             memb s.wsSenders pid = true))) ∧
         (byteLen message > 256 ∨ ch.settings.chat ≠ some true →
          (handleChat now s cid (some message)).snd = []))) ∧
    (alGet s.clients cid = none →
        (handleChat now s cid (some message)).snd = []) ∧
    (∀ client, alGet s.clients cid = some client →
        (client.channelId = none ∨ client.participant = none) →
        (handleChat now s cid (some message)).snd = []) ∧
    (∀ client chid, alGet s.clients cid = some client →
        client.channelId = some chid → alGet s.channels chid = none →
        (handleChat now s cid (some message)).snd = []) := by
  refine ⟨⟨?_, rfl⟩, ?_, ?_, ?_, ?_⟩
  · simp only [handleChat]
    repeat' split
    all_goals rfl
  · intro client chid part ch hc hcid hpart hch
    constructor
    · rintro ⟨hlen, hchat⟩ pid m2
      have hnot : ¬ byteLen message > 256 := by omega
      have hb : (handleChat now s cid (some message)).snd =
          broadcastToChannel s chid (Msg.chatMsg message part now) none := by
        simp [handleChat, hc, hcid, hpart, hch, hchat, hnot]
      rw [hb,
        mem_broadcastToChannel s chid ch hch (Msg.chatMsg message part now) none
          pid m2]
      simp [excludeOk]
    · intro hdrop
      rcases hdrop with hlen | hchat
      · simp [handleChat, hlen]
      · rcases hcs : ch.settings.chat with _ | b
        · simp [handleChat, hc, hcid, hpart, hch, hcs]
        · cases b
          · simp [handleChat, hc, hcid, hpart, hch, hcs]
          · exact absurd hcs hchat
  · intro hc
    by_cases hb : byteLen message > 256
    · simp [handleChat, hb]
    · simp [handleChat, hb, hc]
  · intro client hc hcase
    by_cases hb : byteLen message > 256
    · simp [handleChat, hb]
    · rcases hcase with hcc | hpn
      · simp [handleChat, hb, hc, hcc]
      · rcases hcc : client.channelId with _ | chid
        · simp [handleChat, hb, hc, hcc]
        · simp [handleChat, hb, hc, hcc, hpn]
  · intro client chid hc hcc hch
    by_cases hb : byteLen message > 256
    · simp [handleChat, hb]
    · rcases hp : client.participant with _ | part
      · simp [handleChat, hb, hc, hcc, hp]
      · simp [handleChat, hb, hc, hcc, hp, hch]

theorem c7_chat_gate_witness :
    alGet c7state.clients "harry" = some c7client ∧
    c7client.channelId = some "room2" ∧
    c7client.participant = some (defaultParticipant "harry" "harry") ∧
    alGet c7state.channels "room2" = some c7chan ∧
    byteLen "hello" ≤ 256 ∧ c7chan.settings.chat = some true ∧
    (∀ pid m2,
        ((pid, m2) ∈ (handleChat 3 c7state "harry" (some "hello")).snd ↔
          (m2 = Msg.chatMsg "hello" (defaultParticipant "harry" "harry") 3 ∧
           (∃ p2, (pid, p2) ∈ c7chan.participants) ∧
           memb c7state.wsSenders pid = true))) :=
  ⟨by decide, by decide, by decide, by decide, by decide, by decide,
   ((c7_chat_gate 3 c7state "harry" "hello").2.1 c7client "room2"
     (defaultParticipant "harry" "harry") c7chan (by decide) (by decide)
     (by decide) (by decide)).1 ⟨by decide, by decide⟩⟩

/- Channel-map preservation for the operations that never touch channels. -/

theorem channels_connectOp (s : ServerState) (cid : String) :
    (connectOp s cid).channels = s.channels := by
  simp only [connectOp]
  repeat' split
  all_goals rfl

theorem channels_handleHi (now : Nat) (s : ServerState) (cid : String) :
    (handleHi now s cid).fst.channels = s.channels := by
  simp only [handleHi]
  repeat' split
  all_goals rfl

theorem channels_handlePlusLs (s : ServerState) (cid : String) :
    (handlePlusLs s cid).fst.channels = s.channels := by
  simp only [handlePlusLs]

theorem channels_handleMinusLs (s : ServerState) (cid : String) :
    (handleMinusLs s cid).fst.channels = s.channels := rfl

theorem channels_handleTime (now : Nat) (s : ServerState) (cid : String)
    (e : Option Int) : (handleTime now s cid e).fst.channels = s.channels := by
  simp only [handleTime]
  repeat' split
  all_goals rfl

theorem channels_handleChat (now : Nat) (s : ServerState) (cid : String)
    (m : Option String) : (handleChat now s cid m).fst.channels = s.channels := by
  simp only [handleChat]
  repeat' split
  all_goals rfl

theorem channels_handleNote (now : Nat) (s : ServerState) (cid : String)
    (t : Option Int) (n : Option (List Nat)) :
    (handleNote now s cid t n).fst.channels = s.channels := by
  simp only [handleNote]
  repeat' split
  all_goals rfl

theorem channels_handleMovement (now : Nat) (s : ServerState) (cid : String)
    (x y : Option Int) :
    (handleMovement now s cid x y).fst.channels = s.channels := by
  simp only [handleMovement]
  repeat' split
  all_goals rfl

theorem channels_handleUserset (s : ServerState) (cid : String)
    (nm col : Option String) :
    (handleUserset s cid nm col).fst.channels = s.channels := by
  simp only [handleUserset]
  repeat' split
  all_goals rfl

theorem channels_handleUnban (s : ServerState) (cid : String)
    (tuid : Option String) :
    (handleUnban s cid tuid).fst.channels = s.channels := by
  simp only [handleUnban]
  repeat' split
  all_goals rfl

theorem channels_handleDevices (s : ServerState) (cid : String) (l : Option Nat) :
    (handleDevices s cid l).fst.channels = s.channels := by
  simp only [handleDevices]
  repeat' split
  all_goals rfl

theorem channels_tickAllOp (s : ServerState) :
    (tickAllOp s).channels = s.channels := rfl

/- Preservation of empty chat histories by the channel-touching operations. -/

theorem chatInvL_set (l : List (String × Channel)) (k : String) (c : Channel)
    (hl : ChatInvL l) (hc : c.chatHistory = []) : ChatInvL (alSet l k c) := by
  intro chid ch hget
  rw [alGet_alSet] at hget
  by_cases h : chid = k
  · rw [if_pos h] at hget
    injection hget with h2
    subst h2
    exact hc
  · rw [if_neg h] at hget
    exact hl chid ch hget

theorem chatInvL_erase (l : List (String × Channel)) (k : String)
    (hl : ChatInvL l) : ChatInvL (alErase l k) := by
  intro chid ch hget
  rw [alGet_alErase] at hget
  by_cases h : chid = k
  · rw [if_pos h] at hget
    exact Option.noConfusion hget
  · rw [if_neg h] at hget
    exact hl chid ch hget

theorem chatInvL_set_keep (l : List (String × Channel)) (k : String)
    (c c0 : Channel) (k0 : String) (h0 : alGet l k0 = some c0)
    (hl : ChatInvL l) (hk : c.chatHistory = c0.chatHistory) :
    ChatInvL (alSet l k c) :=
  chatInvL_set l k c hl (hk.trans (hl k0 c0 h0))

theorem chatInvL_chCreate (now : Nat) (s : ServerState) (chid : String)
    (h : ChatInvL s.channels) : ChatInvL (chCreate now s chid).channels := by
  unfold chCreate
  split
  · exact h
  · exact chatInvL_set s.channels chid _ h
      (by unfold createDefaultChannel; split <;> rfl)

theorem chatInvL_chLeaveOld (s : ServerState) (cid old : String)
    (h : ChatInvL s.channels) : ChatInvL (chLeaveOld s cid old).channels := by
  unfold chLeaveOld
  split
  · exact h
  · rename_i ch heq
    exact chatInvL_set _ _ _ h (h old ch heq)

theorem chatInvL_chLeaveStep (s : ServerState) (cid chid : String)
    (client : ClientData) (h : ChatInvL s.channels) :
    ChatInvL (chLeaveStep s cid chid client).channels := by
  unfold chLeaveStep
  split
  · split
    · exact chatInvL_chLeaveOld _ _ _ h
    · exact h
  · exact h

theorem chatInvL_core (now : Nat) (s : ServerState) (cid chid : String)
    (client : ClientData) (h : ChatInvL s.channels) :
    ChatInvL (handleChannelCore now s cid chid client).fst.channels := by
  have hB : ChatInvL (chLeaveStep (chCreate now s chid) cid chid client).channels :=
    chatInvL_chLeaveStep _ _ _ _ (chatInvL_chCreate now s chid h)
  simp only [handleChannelCore]
  split
  · exact hB
  · rename_i ch heq
    exact chatInvL_set _ _ _ hB (hB chid ch heq)

theorem chatInvL_handleChannel (now : Nat) (s : ServerState) (cid : String)
    (target : Option String) (h : ChatInvL s.channels) :
    ChatInvL (handleChannel now s cid target).fst.channels := by
  simp only [handleChannel]
  repeat' split
  all_goals first
    | exact h
    | exact chatInvL_core _ _ _ _ _ h

theorem chatInvL_chset (s : ServerState) (cid : String) (sd : Option ChsetData)
    (h : ChatInvL s.channels) : ChatInvL (handleChset s cid sd).fst.channels := by
  simp only [handleChset]
  repeat' split
  all_goals try exact h
  all_goals exact chatInvL_set_keep _ _ _ _ _ (by assumption) h (by rfl)

theorem chatInvL_chown (now : Nat) (s : ServerState) (cid : String)
    (tid : Option String) (h : ChatInvL s.channels) :
    ChatInvL (handleChown now s cid tid).fst.channels := by
  simp only [handleChown]
  repeat' split
  all_goals try exact h
  all_goals exact chatInvL_set_keep _ _ _ _ _ (by assumption) h (by rfl)

theorem chatInvL_disconnect (now : Nat) (s : ServerState) (cid : String)
    (h : ChatInvL s.channels) :
    ChatInvL (handleDisconnect now s cid).fst.channels := by
  simp only [handleDisconnect]
  repeat' split
  all_goals try exact h
  all_goals first
    | exact chatInvL_erase _ _ (chatInvL_set_keep _ _ _ _ _ (by assumption) h (by rfl))
    | exact chatInvL_set_keep _ _ _ _ _ (by assumption) h (by rfl)

theorem chatInvL_kickban (now : Nat) (s : ServerState) (cid : String)
    (tuid : Option String) (ms : Option Nat) (h : ChatInvL s.channels) :
    ChatInvL (handleKickban now s cid tuid ms).fst.channels := by
  simp only [handleKickban]
  repeat' split
  all_goals try exact h
  all_goals exact chatInvL_handleChannel _ _ _ _ h

theorem chatInv_reachable (s : ServerState) (h : Reachable s) :
    ChatInvL s.channels := by
  induction h with
  | init =>
      intro chid ch hget
      exact Option.noConfusion hget
  | more hr hstep ih =>
      cases hstep with
      | connect cid => rw [channels_connectOp]; exact ih
      | close now cid => exact chatInvL_disconnect now _ cid ih
      | hi now cid => rw [channels_handleHi]; exact ih
      | bye now cid => exact chatInvL_disconnect now _ cid ih
      | plusLs cid => rw [channels_handlePlusLs]; exact ih
      | minusLs cid => rw [channels_handleMinusLs]; exact ih
      | timeEv now cid e => rw [channels_handleTime]; exact ih
      | chat now cid m => rw [channels_handleChat]; exact ih
      | note now cid t n => rw [channels_handleNote]; exact ih
      | move now cid x y => rw [channels_handleMovement]; exact ih
      | userset cid nm col => rw [channels_handleUserset]; exact ih
      | chEv now cid target => exact chatInvL_handleChannel now _ cid target ih
      | chset cid sd => exact chatInvL_chset _ cid sd ih
      | chown now cid tid => exact chatInvL_chown now _ cid tid ih
      | kickban now cid tuid ms => exact chatInvL_kickban now _ cid tuid ms ih
      | unban cid tuid => rw [channels_handleUnban]; exact ih
      | devices cid l => rw [channels_handleDevices]; exact ih
      | tick => rw [channels_tickAllOp]; exact ih

/- Shapes of the frames each emitter produces. -/

theorem mem_sendToClient_snd (s : ServerState) (cid : String) (msg : Msg)
    (pm : String × Msg) (h2 : pm ∈ sendToClient s cid msg) : pm.snd = msg := by
  unfold sendToClient at h2
  split at h2
  · rw [List.mem_singleton] at h2
    rw [h2]
  · exact absurd h2 (List.not_mem_nil pm)

theorem mem_broadcast_snd (s : ServerState) (chid : String) (msg : Msg)
    (ex : Option String) (pm : String × Msg)
    (h2 : pm ∈ broadcastToChannel s chid msg ex) : pm.snd = msg := by
  unfold broadcastToChannel at h2
  split at h2
  · exact absurd h2 (List.not_mem_nil pm)
  · obtain ⟨kv, _, heq⟩ := List.mem_map.mp h2
    rw [← heq]

theorem mem_ls_snd (s : ServerState) (chid : String) (b : Bool)
    (pm : String × Msg) (h2 : pm ∈ broadcastLsUpdate s chid b) :
    ∃ u, pm.snd = Msg.lsMsg b u := by
  unfold broadcastLsUpdate at h2
  split at h2
  · exact absurd h2 (List.not_mem_nil pm)
  · split at h2
    · obtain ⟨sub, _, heq⟩ := List.mem_map.mp h2
      exact ⟨_, by rw [← heq]⟩
    · exact absurd h2 (List.not_mem_nil pm)

theorem mem_chLeaveMsgs_snd (s : ServerState) (cid chid : String)
    (client : ClientData) (pm : String × Msg)
    (h2 : pm ∈ chLeaveMsgs s cid chid client) : pm.snd = Msg.byeMsg cid := by
  unfold chLeaveMsgs at h2
  split at h2
  · split at h2
    · exact mem_broadcast_snd _ _ _ _ _ h2
    · exact absurd h2 (List.not_mem_nil pm)
  · exact absurd h2 (List.not_mem_nil pm)

theorem core_cMsg (now : Nat) (s : ServerState) (cid chid : String)
    (client : ClientData) (h : ChatInvL s.channels) (r : String)
    (hist : List ChatMessage)
    (hm : (r, Msg.cMsg hist) ∈ (handleChannelCore now s cid chid client).snd) :
    hist = [] := by
  have hB : ChatInvL (chLeaveStep (chCreate now s chid) cid chid client).channels :=
    chatInvL_chLeaveStep _ _ _ _ (chatInvL_chCreate now s chid h)
  simp only [handleChannelCore] at hm
  split at hm
  · rcases List.mem_append.mp hm with h1 | h1
    · split at h1
      · exact absurd h1 (List.not_mem_nil _)
      · obtain ⟨u, hu⟩ := mem_ls_snd _ _ _ _ h1
        exact absurd hu (by simp)
    · have hx := mem_chLeaveMsgs_snd _ _ _ _ _ h1
      exact absurd hx (by simp)
  · rename_i ch heq
    simp only [List.mem_append] at hm
    rcases hm with ((((h1 | h1) | h1) | h1) | h1) | h1
    · split at h1
      · exact absurd h1 (List.not_mem_nil _)
      · obtain ⟨u, hu⟩ := mem_ls_snd _ _ _ _ h1
        exact absurd hu (by simp)
    · have hx := mem_chLeaveMsgs_snd _ _ _ _ _ h1
      exact absurd hx (by simp)
    · have hx := mem_sendToClient_snd _ _ _ _ h1
      exact absurd hx (by simp)
    · have hx := mem_sendToClient_snd _ _ _ _ h1
      have hx2 : Msg.cMsg hist = Msg.cMsg ch.chatHistory := hx
      injection hx2 with h6
      rw [h6]
      exact hB chid ch heq
    · have hx := mem_broadcast_snd _ _ _ _ _ h1
      exact absurd hx (by simp)
    · obtain ⟨u, hu⟩ := mem_ls_snd _ _ _ _ h1
      exact absurd hu (by simp)

theorem handleChannel_cMsg (now : Nat) (s : ServerState) (cid : String)
    (target : Option String) (h : ChatInvL s.channels) (r : String)
    (hist : List ChatMessage)
    (hm : (r, Msg.cMsg hist) ∈ (handleChannel now s cid target).snd) :
    hist = [] := by
  simp only [handleChannel] at hm
  repeat' split at hm
  all_goals first
    | exact absurd hm (List.not_mem_nil _)
    | (have hx := mem_sendToClient_snd _ _ _ _ hm
       exact absurd hx (by simp))
    | exact core_cMsg _ _ _ _ _ h _ _ hm

/-- C10: in every reachable registry state every channel has an empty chat
history — no operation ever appends to chat_history — and consequently the
c frame the ch handler sends to a joining client always carries the empty
list. -/
theorem c10_chat_history_empty (s : ServerState) (h : Reachable s) :
    (∀ chid ch, alGet s.channels chid = some ch → ch.chatHistory = []) ∧
    (∀ now cid target r hist,
        (r, Msg.cMsg hist) ∈ (handleChannel now s cid target).snd →
        hist = []) := by
  have hinv : ChatInvL s.channels := chatInv_reachable s h
  exact ⟨hinv, fun now cid target r hist hm =>
    handleChannel_cMsg now s cid target hinv r hist hm⟩

theorem c10_chat_history_empty_witness :
    (∀ chid ch, alGet initState.channels chid = some ch → ch.chatHistory = []) ∧
    (∀ now cid target r hist,
        (r, Msg.cMsg hist) ∈ (handleChannel now initState cid target).snd →
        hist = []) :=
  c10_chat_history_empty initState Reachable.init
